import Mathlib

/-!
A shallow embedding of the RAG chatbot pipeline (`app/ingest_api.py`,
`app/index.py`, `app/rag_chain.py`) together with theorems settling the
frozen claims about its specification.

Python strings are modelled as Lean `String`/`List Char` (the data handled
by the program is ASCII); Python dicts that the code scans by key are
modelled as insertion-ordered association lists; Python `None` becomes
`Option`. External collaborators (the vector store, the embedding model and
the generation model) are modelled by explicit state and oracle parameters,
following the interface described by the code's call sites.
-/

namespace RagBot

/-! ### String primitives (Python `str` behaviour, ASCII fragment) -/

/-- Python `str.lower` (ASCII fragment). -/
def lowerStr (s : String) : String := String.mk (s.data.map Char.toLower)

/-- `leadEq needle hay`: `needle` is a leading run of `hay`. -/
def leadEq : List Char → List Char → Bool
  | [], _ => true
  | _ :: _, [] => false
  | a :: as, b :: bs => a == b && leadEq as bs

/-- `hasRun needle hay`: `needle` occurs contiguously inside `hay`. -/
def hasRun (needle : List Char) : List Char → Bool
  | [] => leadEq needle []
  | b :: tl => leadEq needle (b :: tl) || hasRun needle tl

/-- Python `needle in hay` for strings (substring containment). -/
def strContains (hay needle : String) : Bool := hasRun needle.data hay.data

/-- Python's `\s` character class / `str.strip` whitespace (ASCII). -/
def pyIsSpace (c : Char) : Bool :=
  c == ' ' || c == '\t' || c == '\n' || c == '\r' || c == '\x0b' || c == '\x0c'

/-- Python `str.strip()`. -/
def pyStrip (s : String) : String :=
  String.mk (((s.data.dropWhile pyIsSpace).reverse.dropWhile pyIsSpace).reverse)

/-- Python `str.isdigit()` (ASCII fragment): nonempty and all digits. -/
def pyIsDigit (s : String) : Bool := !(s.data.isEmpty) && s.data.all Char.isDigit

/-- Python `s.rsplit(" ", 1)[0]`: everything before the last space, or the
whole string when no space occurs. -/
def rsplitHead (s : String) : String :=
  if s.data.contains ' ' then
    String.mk (((s.data.reverse.dropWhile (fun c => !(c == ' '))).tail).reverse)
  else s

/-- Lexicographic code-point comparison of strings (Python `<=` on `str`). -/
def lexLE : List Char → List Char → Bool
  | [], _ => true
  | _ :: _, [] => false
  | a :: as, b :: bs => if a == b then lexLE as bs else decide (a < b)

/-! ### JSON-ish values and Python dict operations -/

/-- A scalar JSON value as handled by the passage builder. -/
inductive Value where
  | str (s : String)
  | num (n : Int)
  deriving DecidableEq, Repr

/-- Python truthiness of a scalar value (`""` and `0` are falsy). -/
def truthy : Value → Bool
  | .str s => !(s == "")
  | .num n => !(n == 0)

/-- Python `f"{v}"` rendering of a scalar value. -/
def renderVal : Value → String
  | .str s => s
  | .num n => toString n

/-- Python `f"{v}"` rendering of a value that may be `None`. -/
def renderOpt : Option Value → String
  | none => "None"
  | some v => renderVal v

/-- A JSON object scanned by key: an insertion-ordered association list. -/
abbrev Row := List (String × Value)

/-- Python `row.get(k)`: value at the (unique) key, else `None`. -/
def pyGet (row : Row) (k : String) : Option Value :=
  (row.find? (fun kv => kv.1 == k)).map (fun kv => kv.2)

/-- Python `a or b` on optional values: `None` and falsy values select `b`. -/
def pyOr (a b : Option Value) : Option Value :=
  match a with
  | some v => if truthy v then some v else b
  | none => b

/-! ### `app/ingest_api.py`: `AVClient._get` (bounded throttle retry) -/

/-- `any(k.lower() == "note" for k in data.keys())`: throttling signal. -/
def isThrottle (r : Row) : Bool := r.any (fun kv => lowerStr kv.1 == "note")

/-- `"Error Message" in data`. -/
def hasErrorMsg (r : Row) : Bool := r.any (fun kv => kv.1 == "Error Message")

/-- Outcome of `AVClient._get`, recording how many HTTP attempts were made
and how many throttle sleeps were performed. -/
inductive AVOutcome where
  | ok (r : Row) (attempts sleeps : Nat)
  | errMsg (v : Option Value) (attempts sleeps : Nat)
  | retriesExceeded (attempts sleeps : Nat)
  deriving DecidableEq, Repr

/-- The retry loop of `AVClient._get`: `f i` is the JSON body returned by
the `i`-th HTTP request; `fuel` attempts remain, `i` requests and `s`
sleeps have happened so far. -/
def avGetGo (f : Nat → Row) : Nat → Nat → Nat → AVOutcome
  | 0, i, s => .retriesExceeded i s
  | fuel + 1, i, s =>
    let r := f i
    if isThrottle r then avGetGo f fuel (i + 1) (s + 1)
    else if hasErrorMsg r then .errMsg (pyGet r "Error Message") (i + 1) s
    else .ok r (i + 1) s

/-- `AVClient._get`: up to 5 attempts, sleeping after each throttled one. -/
def avGet (f : Nat → Row) : AVOutcome := avGetGo f 5 0 0

/-! ### `app/ingest_api.py`: stock daily passages -/

/-- The loop body of `_ts_stock_passages`: the f-string
`f"{symbol} daily bar on {date_str}: open {o}, ..."` with the code's
field-fallback chains (`or`-combined, hence falsy-sensitive). -/
def renderStockRow (symbol date : String) (row : Row) : String :=
  let o := pyGet row "1. open"
  let h := pyGet row "2. high"
  let l := pyGet row "3. low"
  let c := pyOr (pyGet row "4. close") (pyGet row "5. adjusted close")
  let v := pyOr (pyOr (pyGet row "6. volume") (pyGet row "5. volume")) (pyGet row "volume")
  symbol ++ " daily bar on " ++ date ++ ": open " ++ renderOpt o ++ ", high " ++
    renderOpt h ++ ", low " ++ renderOpt l ++ ", close " ++ renderOpt c ++
    ", volume " ++ renderOpt v ++ "."

/-- A time series: date string → row, insertion-ordered. -/
abbrev Series := List (String × Row)

/-- A top-level API response: key → time series, insertion-ordered. -/
abbrev Json := List (String × Series)

/-- `sorted(series.items(), key=lambda x: x[0], reverse=True)` (stable
descending sort on the date string). -/
def sortItemsDesc (s : Series) : Series :=
  List.insertionSort (fun a b => lexLE b.1.data a.1.data = true) s

/-- `_ts_stock_passages`: the time-series key is located by a
case-sensitive substring match of `"Time Series"`. -/
def tsStockPassages (symbol : String) (tsJson : Json) (maxDays : Nat) : List String :=
  match tsJson.find? (fun kv => strContains kv.1 "Time Series") with
  | none => []
  | some kv =>
    ((sortItemsDesc kv.2).take maxDays).map (fun p => renderStockRow symbol p.1 p.2)

/-! ### `app/ingest_api.py`: crypto daily passages -/

/-- `_ts_crypto_passages` open-field extraction: plain `"1. open"`, then —
only when that key is absent — the `or`-combined market-qualified keys. -/
def cryptoOpen (row : Row) (market : String) : Option Value :=
  match pyGet row "1. open" with
  | some v => some v
  | none => pyOr (pyGet row ("1a. open (" ++ market ++ ")")) (pyGet row ("1b. open (" ++ market ++ ")"))

/-- `_ts_crypto_passages` high-field extraction. -/
def cryptoHigh (row : Row) (market : String) : Option Value :=
  match pyGet row "2. high" with
  | some v => some v
  | none => pyOr (pyGet row ("2a. high (" ++ market ++ ")")) (pyGet row ("2b. high (" ++ market ++ ")"))

/-- `_ts_crypto_passages` low-field extraction. -/
def cryptoLow (row : Row) (market : String) : Option Value :=
  match pyGet row "3. low" with
  | some v => some v
  | none => pyOr (pyGet row ("3a. low (" ++ market ++ ")")) (pyGet row ("3b. low (" ++ market ++ ")"))

/-- `_ts_crypto_passages` close-field extraction: plain key, then the
market-qualified keys, then (only for this field) any key containing
`"close"` case-insensitively. -/
def cryptoClose (row : Row) (market : String) : Option Value :=
  match pyGet row "4. close" with
  | some v => some v
  | none =>
    match pyOr (pyGet row ("4a. close (" ++ market ++ ")")) (pyGet row ("4b. close (" ++ market ++ ")")) with
    | some v => some v
    | none => (row.find? (fun kv => strContains (lowerStr kv.1) "close")).map (fun kv => kv.2)

/-- `_ts_crypto_passages` volume extraction:
`row.get("5. volume") or row.get("6. market cap (usd)")`. -/
def cryptoVolume (row : Row) : Option Value :=
  pyOr (pyGet row "5. volume") (pyGet row "6. market cap (usd)")

/-- The loop body of `_ts_crypto_passages`:
`f"{symbol}/{market} on {date_str}: open {o}, ..."`. -/
def renderCryptoRow (symbol market date : String) (row : Row) : String :=
  symbol ++ "/" ++ market ++ " on " ++ date ++ ": open " ++
    renderOpt (cryptoOpen row market) ++ ", high " ++ renderOpt (cryptoHigh row market) ++
    ", low " ++ renderOpt (cryptoLow row market) ++ ", close " ++
    renderOpt (cryptoClose row market) ++ ", volume " ++ renderOpt (cryptoVolume row) ++ "."

/-- `_ts_crypto_passages`: the time-series key is located by a
case-insensitive substring match of `"time series"`. -/
def tsCryptoPassages (symbol market : String) (jsonObj : Json) (maxDays : Nat) : List String :=
  match jsonObj.find? (fun kv => strContains (lowerStr kv.1) "time series") with
  | none => []
  | some kv =>
    ((sortItemsDesc kv.2).take maxDays).map (fun p => renderCryptoRow symbol market p.1 p.2)

/-! ### `app/index.py`: the index builder over the vector store

The chroma collection is external to the repository; it is modelled by its
contents (a list of stored entries) following the interface the code uses:
`get_collection` creates an empty collection when the name is absent,
`col.delete(where={})` clears the collection, `col.add` inserts a batch.
`build_index` additionally records the external operations it issues
(embedding batches, clears, inserts) as an effect trace. -/

/-- A passage handed to `build_index`: `{id, text, source, type}`. -/
structure Doc where
  id : String
  text : String
  source : String
  dtype : String
  deriving DecidableEq, Repr

/-- One stored chunk: id, text and the metadata dict built by `build_index`. -/
structure Entry where
  id : String
  text : String
  source : String
  chunk : Nat
  doc_id : String
  etype : String
  deriving DecidableEq, Repr

/-- An external operation issued by `build_index`. -/
inductive Effect where
  | embed (texts : List String)
  | clear
  | insert (entries : List Entry)
  deriving DecidableEq, Repr

/-- Result of `build_index`: returned count, final collection state
(`none` = collection absent), and the trace of external operations. -/
structure BuildResult where
  count : Nat
  state : Option (List Entry)
  effects : List Effect
  deriving DecidableEq, Repr

/-- The chunk-assembly loop of `build_index`: ids `"<doc.id>#chunk<i>"`,
chunk texts, and metadata `{source, chunk, doc_id, type}`, in order. -/
def chunkEntries (chunker : String → List String) (docs : List Doc) : List Entry :=
  docs.flatMap (fun d =>
    ((chunker d.text).enum).map (fun ic =>
      { id := d.id ++ "#chunk" ++ toString ic.1, text := ic.2,
        source := d.source, chunk := ic.1, doc_id := d.id, etype := d.dtype }))

/-- `build_index(docs, chunker, collection_name)` acting on the named
collection's state `s0`. `get_collection` materialises an empty collection
when absent; with no chunk texts the function returns 0 before any
embedding, clear or insert; otherwise it embeds all texts, clears the
collection and inserts the new chunks. -/
def buildIndex (chunker : String → List String) (docs : List Doc)
    (s0 : Option (List Entry)) : BuildResult :=
  let contents := s0.getD []
  let es := chunkEntries chunker docs
  if es.isEmpty then
    { count := 0, state := some contents, effects := [] }
  else
    { count := es.length, state := some es,
      effects := [.embed (es.map (fun e => e.text)), .clear, .insert es] }

/-! ### `app/rag_chain.py`: the answer composer -/

/-- A retrieved chunk `{text, meta {doc_id, type, ...}, score}`; the score
is absent when the dict carries no `"score"` key (treated as `+inf`). -/
structure Chunk where
  text : String
  docId : String
  ctype : String
  score : Option ℚ
  deriving DecidableEq, Repr, Inhabited

/-- `_numeric_keywords`. -/
def numericKeywords : List String := ["close", "open", "volume", "high", "low", "price"]

/-- `_company_keywords`. -/
def companyKeywords : List String :=
  ["company", "overview", "summary", "profile", "about", "headquarters", "sector", "industry"]

/-- `_contains_numeric_request`. -/
def containsNumericRequest (query : String) : Bool :=
  numericKeywords.any (fun k => strContains (lowerStr query) k)

/-- `_is_company_query`. -/
def isCompanyQuery (query : String) : Bool :=
  companyKeywords.any (fun k => strContains (lowerStr query) k)

/-- The overview test of `_prioritize_chunks`: `"overview"` occurs in the
lowercased `doc_id` or `type`. -/
def isOverview (ch : Chunk) : Bool :=
  strContains (lowerStr ch.docId) "overview" || strContains (lowerStr ch.ctype) "overview"

/-- The sort key order of `_prioritize_chunks`: ascending score, with a
missing score acting as `float("inf")`. -/
def scoreLEb : Option ℚ → Option ℚ → Bool
  | _, none => true
  | none, some _ => false
  | some p, some q => decide (p ≤ q)

/-- The comparison relation used to model Python's stable `sorted` in
`_prioritize_chunks`. -/
def chunkLE (a b : Chunk) : Prop := scoreLEb a.score b.score = true

instance : DecidableRel chunkLE := fun a b =>
  inferInstanceAs (Decidable (scoreLEb a.score b.score = true))

/-- `_prioritize_chunks`: the overview-flavored chunks (membership-filtered
out of `others` exactly as the list comprehension `ch not in overviews`
does), each partition stably sorted by ascending score, overviews first. -/
def prioritizeChunks (chunks : List Chunk) : List Chunk :=
  let overviews := chunks.filter isOverview
  let others := chunks.filter (fun ch => !(overviews.contains ch))
  List.insertionSort chunkLE overviews ++ List.insertionSort chunkLE others

/-- `_shorten_text`: cap at `maxChars` characters, cutting at the last
space of the slice and appending `" ..."`. -/
def shortenText (text : String) (maxChars : Nat) : String :=
  if text == "" then ""
  else if text.length ≤ maxChars then text
  else rsplitHead (String.mk (text.data.take maxChars)) ++ " ..."

/-- Python `sep.join(lines)`. -/
def pyJoin (sep : String) : List String → String
  | [] => ""
  | [x] => x
  | x :: y :: tl => x ++ sep ++ pyJoin sep (y :: tl)

/-- `_format_context`: numbered `[i] doc_id | type:` headers over the
800-character-shortened chunk texts, joined by blank lines. -/
def formatContext (chunks : List Chunk) : String :=
  pyJoin "\n\n"
    ((chunks.enum).map (fun ic =>
      "[" ++ toString (ic.1 + 1) ++ "] " ++ ic.2.docId ++ " | " ++ ic.2.ctype ++ ":\n" ++
        shortenText ic.2.text 800))

/-- `_build_prompt`: the numeric template embeds the best chunk's raw text,
the company template a 400-character slice, the general template
200-character slices of the top two chunks. -/
def buildPrompt (query : String) (chunks : List Chunk) : String :=
  if containsNumericRequest query = true ∧ chunks ≠ [] then
    "Extract the price from this data: " ++ (chunks.headD default).text ++
      "\nQuestion: " ++ query ++ "\nAnswer:"
  else if isCompanyQuery query = true ∧ chunks ≠ [] then
    "Summarize this company information: " ++
      String.mk ((chunks.headD default).text.data.take 400) ++
      "\nQuestion: " ++ query ++ "\nAnswer:"
  else
    "Context: " ++
      String.join ((chunks.take 2).map (fun ch => String.mk (ch.text.data.take 200) ++ "\n")) ++
      "\n\nQuestion: " ++ query ++ "\nAnswer:"

/-! #### The regular expressions of `app/rag_chain.py`

`_NUMERIC_RE = [-+]?\d{1,3}(?:[,\d]{0,})?(?:\.\d+)?` and the close-figure
pattern `close\s+([0-9,]+\.?[0-9]*)` (IGNORECASE) are given their
leftmost-match semantics directly: the character classes after a greedy
run are disjoint from the run's class, so greedy matching never
backtracks, and a match attempt at a position succeeds exactly under the
conditions coded below. -/

/-- A digit or comma (the class `[,\d]`). -/
def digitComma (c : Char) : Bool := c.isDigit || c == ','

/-- Match `\d{1,3}(?:[,\d]{0,})?(?:\.\d+)?` at the start of `l`: a maximal
digit-or-comma run starting with a digit, then a dot only when followed by
at least one digit, with the following maximal digit run. -/
def numMatchDigits (l : List Char) : Option (List Char) :=
  match l with
  | [] => none
  | c :: _ =>
    if c.isDigit then
      let run := l.takeWhile digitComma
      match l.dropWhile digitComma with
      | '.' :: d :: rest =>
        if d.isDigit then some (run ++ '.' :: d :: rest.takeWhile Char.isDigit)
        else some run
      | _ => some run
    else none

/-- Match `_NUMERIC_RE` at the start of `l` (an optional sign must be
followed by a digit). -/
def numMatchCore (l : List Char) : Option (List Char) :=
  match l with
  | [] => none
  | c :: rest =>
    if c == '-' || c == '+' then (numMatchDigits rest).map (fun m => c :: m)
    else numMatchDigits l

/-- The leftmost match of `_NUMERIC_RE` (`findall(...)[0]`). -/
def findFirstNum : List Char → Option (List Char)
  | [] => none
  | c :: rest =>
    match numMatchCore (c :: rest) with
    | some m => some m
    | none => findFirstNum rest

/-- `_extract_numeric_from_text`: first numeric token with commas
stripped, or `""` when there is none. -/
def extractNumericFromText (text : String) : String :=
  match findFirstNum text.data with
  | none => ""
  | some m => String.mk (m.filter (fun c => !(c == ',')))

/-- Case-insensitive literal match of `pat` (given lowercase) against the
head of `l`, returning the remainder on success. -/
def dropCaseless : List Char → List Char → Option (List Char)
  | [], l => some l
  | _ :: _, [] => none
  | p :: ps, c :: cs => if c.toLower == p then dropCaseless ps cs else none

/-- Match `\s+([0-9,]+\.?[0-9]*)` at the start of `l`, returning the
capture group: a maximal digit-or-comma run, then an optional dot with the
following maximal digit run. -/
def closeGroupAfter (l : List Char) : Option (List Char) :=
  let rest := l.dropWhile pyIsSpace
  if l.takeWhile pyIsSpace = [] then none
  else
    match rest with
    | [] => none
    | c :: _ =>
      if digitComma c then
        let run := rest.takeWhile digitComma
        match rest.dropWhile digitComma with
        | '.' :: tl => some (run ++ '.' :: tl.takeWhile Char.isDigit)
        | _ => some run
      else none

/-- `re.search(r'close\s+([0-9,]+\.?[0-9]*)', text, re.IGNORECASE)`:
the capture group of the leftmost occurrence. -/
def closeSearch : List Char → Option (List Char)
  | [] => none
  | c :: rest =>
    match (dropCaseless "close".data (c :: rest)).bind closeGroupAfter with
    | some g => some g
    | none => closeSearch rest

/-- Find the minimal split of `_first_sentence`'s pattern
`(.+?[\.!?])\s`: the shortest prefix of length at least two ending in a
sentence punctuation character that is followed by whitespace. `acc`
holds the (reversed) characters consumed so far. -/
def sentenceSplit : List Char → List Char → Option (List Char)
  | acc, p :: s :: rest =>
    if (p == '.' || p == '!' || p == '?') && pyIsSpace s && !acc.isEmpty then
      some (p :: acc).reverse
    else sentenceSplit (p :: acc) (s :: rest)
  | _, _ => none

/-- `_first_sentence`: strip, turn newlines into spaces, take the first
sentence; otherwise the first 200 characters cut at the last space, with
`"..."` appended when the text was longer than 200 characters. -/
def firstSentence (text : String) : String :=
  let t := String.mk ((pyStrip text).data.map (fun c => if c == '\n' then ' ' else c))
  match sentenceSplit [] t.data with
  | some g => String.mk g
  | none =>
    rsplitHead (String.mk (t.data.take 200)) ++ (if t.length > 200 then "..." else "")

/-- `answer(query, ...)`, with the two external calls factored out as
arguments: `candidates` is what `retrieve(query, k)` returned and `genOut`
what the generator produced on the built prompt. Returns the answer text
and the citation chunk list. -/
def answer (query : String) (candidates : List Chunk) (genOut : String) :
    String × List Chunk :=
  let chunksForPrompt := (prioritizeChunks candidates).take 4
  let answerText := pyStrip genOut
  if answerText = "" ∨ answerText.length ≤ 3 ∨ pyIsDigit answerText = true then
    match chunksForPrompt with
    | [] => ("I don't know.", [])
    | best :: rest =>
      if containsNumericRequest query then
        let text := best.text
        let closeHit :=
          if strContains (lowerStr text) "close" then closeSearch text.data else none
        match closeHit with
        | some g => ("BTC close price: " ++ String.mk g, best :: rest)
        | none =>
          let num := extractNumericFromText text
          if num == "" then (firstSentence text, best :: rest)
          else ("Price: " ++ num, best :: rest)
      else (firstSentence best.text, best :: rest)
  else (answerText, chunksForPrompt)

/-! ### Helper lemmas -/

/-- The list comprehension `[ch for ch in chunks if ch not in overviews]`
keeps exactly the chunks failing the overview test, because dict equality
with an overview-flavored chunk forces the overview flag. -/
theorem filter_not_contains_overviews (chunks : List Chunk) :
    chunks.filter (fun ch => !((chunks.filter isOverview).contains ch)) =
    chunks.filter (fun ch => !(isOverview ch)) := by
  apply List.filter_congr
  intro a ha
  have hc : ((chunks.filter isOverview).contains a) = isOverview a := by
    by_cases h : isOverview a = true
    · simp [List.mem_filter, ha, h]
    · have h' : isOverview a = false := by
        cases hh : isOverview a
        · rfl
        · exact absurd hh h
      simp [List.mem_filter, h']
  rw [hc]

instance : IsTotal Chunk chunkLE := by
  constructor
  intro a b
  unfold chunkLE scoreLEb
  cases a.score with
  | none =>
    cases b.score with
    | none => exact Or.inl rfl
    | some q => exact Or.inr rfl
  | some p =>
    cases b.score with
    | none => exact Or.inl rfl
    | some q =>
      rcases le_total p q with h | h
      · exact Or.inl (by simpa using h)
      · exact Or.inr (by simpa using h)

instance : IsTrans Chunk chunkLE := by
  constructor
  intro a b c hab hbc
  unfold chunkLE scoreLEb at hab hbc ⊢
  cases ha : a.score with
  | none =>
    cases hc : c.score with
    | none => rfl
    | some r =>
      rw [ha] at hab
      cases hb : b.score with
      | none =>
        rw [hb, hc] at hbc
        exact absurd hbc (by simp)
      | some q =>
        rw [hb] at hab
        exact absurd hab (by simp)
  | some p =>
    cases hc : c.score with
    | none => rfl
    | some r =>
      rw [ha] at hab
      rw [hc] at hbc
      cases hb : b.score with
      | none =>
        rw [hb] at hbc
        exact absurd hbc (by simp)
      | some q =>
        rw [hb] at hab hbc
        simp only [decide_eq_true_eq] at hab hbc ⊢
        exact le_trans hab hbc

/-! ### Claims -/

/-- C9: for every retrieval result, the prioritized order produced by
`_prioritize_chunks` is a permutation of the input consisting of the
overview-flavored chunks (doc_id or type containing `"overview"`
case-insensitively) sorted by ascending score, followed by the remaining
chunks sorted by ascending score; in particular an overview chunk with
score 0.9 precedes a non-overview chunk with score 0.1. -/
theorem c9_prioritization (chunks : List Chunk) :
    List.Perm (prioritizeChunks chunks) chunks ∧
    (∃ A B, prioritizeChunks chunks = A ++ B ∧
      List.Perm A (chunks.filter isOverview) ∧
      List.Perm B (chunks.filter (fun ch => !(isOverview ch))) ∧
      List.Sorted chunkLE A ∧ List.Sorted chunkLE B) ∧
    prioritizeChunks
      [⟨"other", "av/AAPL/daily#0", "api/alpha_vantage", some (mkRat 1 10)⟩,
       ⟨"ov", "av/AAPL/overview", "api/alpha_vantage", some (mkRat 9 10)⟩] =
      [⟨"ov", "av/AAPL/overview", "api/alpha_vantage", some (mkRat 9 10)⟩,
       ⟨"other", "av/AAPL/daily#0", "api/alpha_vantage", some (mkRat 1 10)⟩] := by
  refine ⟨?_, ⟨List.insertionSort chunkLE (chunks.filter isOverview),
      List.insertionSort chunkLE
        (chunks.filter (fun ch => !((chunks.filter isOverview).contains ch))),
      rfl, List.perm_insertionSort _ _, ?_, List.sorted_insertionSort _ _,
      List.sorted_insertionSort _ _⟩, by decide⟩
  · unfold prioritizeChunks
    refine ((List.perm_insertionSort _ _).append (List.perm_insertionSort _ _)).trans ?_
    rw [filter_not_contains_overviews]
    exact List.filter_append_perm _ _
  · rw [filter_not_contains_overviews]
    exact List.perm_insertionSort _ _

/-- C10: in `_ts_stock_passages`, the close fallback triggers not only
when `"4. close"` is absent but whenever its value is Python-falsy (empty
string or 0), because the chain is combined with Python `or`: the emitted
daily-bar passage renders its close slot from `"5. adjusted close"`. -/
theorem c10_falsy_close_fallback (sym date : String) (row : Row) (v : Value)
    (h4 : pyGet row "4. close" = some v) (hfalsy : truthy v = false) :
    renderStockRow sym date row =
      sym ++ " daily bar on " ++ date ++ ": open " ++ renderOpt (pyGet row "1. open") ++
        ", high " ++ renderOpt (pyGet row "2. high") ++ ", low " ++
        renderOpt (pyGet row "3. low") ++ ", close " ++
        renderOpt (pyGet row "5. adjusted close") ++ ", volume " ++
        renderOpt (pyOr (pyOr (pyGet row "6. volume") (pyGet row "5. volume"))
          (pyGet row "volume")) ++ "." := by
  simp [renderStockRow, pyOr, h4, hfalsy]

/-- C10 witness: a concrete row whose `"4. close"` is the empty string is
rendered with the adjusted close. -/
theorem c10_falsy_close_fallback_witness :
    renderStockRow "AAPL" "2024-01-01"
      [("4. close", Value.str ""), ("5. adjusted close", Value.str "101.5")] =
      "AAPL" ++ " daily bar on " ++ "2024-01-01" ++ ": open " ++
        renderOpt (pyGet [("4. close", Value.str ""), ("5. adjusted close", Value.str "101.5")] "1. open") ++
        ", high " ++ renderOpt (pyGet [("4. close", Value.str ""), ("5. adjusted close", Value.str "101.5")] "2. high") ++
        ", low " ++ renderOpt (pyGet [("4. close", Value.str ""), ("5. adjusted close", Value.str "101.5")] "3. low") ++
        ", close " ++ renderOpt (pyGet [("4. close", Value.str ""), ("5. adjusted close", Value.str "101.5")] "5. adjusted close") ++
        ", volume " ++ renderOpt (pyOr (pyOr (pyGet [("4. close", Value.str ""), ("5. adjusted close", Value.str "101.5")] "6. volume")
          (pyGet [("4. close", Value.str ""), ("5. adjusted close", Value.str "101.5")] "5. volume"))
          (pyGet [("4. close", Value.str ""), ("5. adjusted close", Value.str "101.5")] "volume")) ++ "." :=
  c10_falsy_close_fallback "AAPL" "2024-01-01"
    [("4. close", Value.str ""), ("5. adjusted close", Value.str "101.5")]
    (Value.str "") (by decide) (by decide)

/-- C8: in `AVClient._get`, a response sequence of two throttling signals
(a key equal to `"note"` case-insensitively) followed by a valid payload
succeeds with that payload after 3 attempts and 2 sleeps; five consecutive
throttling signals exhaust the 5 attempts, sleep after each, and raise the
retries-exceeded error without a sixth attempt. -/
theorem c8_throttle_retry (t1 t2 t3 t4 t5 p : Row)
    (h1 : isThrottle t1 = true) (h2 : isThrottle t2 = true)
    (h3 : isThrottle t3 = true) (h4 : isThrottle t4 = true)
    (h5 : isThrottle t5 = true)
    (hp : isThrottle p = false) (hpe : hasErrorMsg p = false) :
    avGet (fun i => [t1, t2, p].getD i []) = .ok p 3 2 ∧
    avGet (fun i => [t1, t2, t3, t4, t5].getD i []) = .retriesExceeded 5 5 := by
  constructor
  · show avGetGo _ 5 0 0 = _
    rw [avGetGo]
    simp only [List.getD, List.get?, Option.getD, h1, if_pos]
    rw [avGetGo]
    simp only [List.getD, List.get?, Option.getD, h2, if_pos]
    rw [avGetGo]
    simp only [List.getD, List.get?, Option.getD, hp, hpe]
    simp
  · show avGetGo _ 5 0 0 = _
    rw [avGetGo]
    simp only [List.getD, List.get?, Option.getD, h1, if_pos]
    rw [avGetGo]
    simp only [List.getD, List.get?, Option.getD, h2, if_pos]
    rw [avGetGo]
    simp only [List.getD, List.get?, Option.getD, h3, if_pos]
    rw [avGetGo]
    simp only [List.getD, List.get?, Option.getD, h4, if_pos]
    rw [avGetGo]
    simp only [List.getD, List.get?, Option.getD, h5, if_pos]
    rw [avGetGo]

/-- C8 witness: concrete throttling responses and a concrete payload. -/
theorem c8_throttle_retry_witness :
    avGet (fun i =>
      [[("Note", Value.str "limit")], [("NOTE", Value.str "limit")],
       [("Time Series (Daily)", Value.str "data")]].getD i []) =
      .ok [("Time Series (Daily)", Value.str "data")] 3 2 ∧
    avGet (fun i =>
      [[("Note", Value.str "limit")], [("Note", Value.str "limit")],
       [("Note", Value.str "limit")], [("Note", Value.str "limit")],
       [("Note", Value.str "limit")]].getD i []) =
      .retriesExceeded 5 5 :=
  c8_throttle_retry [("Note", Value.str "limit")] [("Note", Value.str "limit")]
    [("Note", Value.str "limit")] [("Note", Value.str "limit")]
    [("Note", Value.str "limit")] [("Time Series (Daily)", Value.str "data")]
    (by decide) (by decide) (by decide) (by decide) (by decide)
    (by decide) (by decide)

/-- C3 counterexample: a stock time-series response whose key carries the
phrase `"Time Series"` in a different letter case (it matches
case-insensitively but not case-sensitively) yields an empty passage list,
not daily-bar passages. -/
theorem c3_counterexample :
    strContains (lowerStr "TIME SERIES (DAILY)") "time series" = true ∧
    tsStockPassages "IBM"
      [("TIME SERIES (DAILY)", [("2024-01-01", [("1. open", Value.str "188.0")])])] 365 =
      [] := by
  constructor
  · decide
  · decide

/-- C3 amended: `_ts_stock_passages` locates the time-series field by a
case-sensitive substring match of `"Time Series"`, so a differently-cased
key yields an empty passage list; only `_ts_crypto_passages` matches
case-insensitively and still emits one passage per (sorted, truncated)
daily row for such a key. -/
theorem c3_amended (sym : String) (maxDays : Nat) (k : String) (series : Series)
    (hcs : strContains k "Time Series" = false)
    (hci : strContains (lowerStr k) "time series" = true) :
    tsStockPassages sym [(k, series)] maxDays = [] ∧
    tsCryptoPassages sym "USD" [(k, series)] maxDays =
      ((sortItemsDesc series).take maxDays).map
        (fun p => renderCryptoRow sym "USD" p.1 p.2) := by
  constructor
  · unfold tsStockPassages
    simp [List.find?, hcs]
  · unfold tsCryptoPassages
    simp [List.find?, hci]

/-- C3 amended witness: a concrete upper-cased key. -/
theorem c3_amended_witness :
    tsStockPassages "IBM"
      [("TIME SERIES (DAILY)", [("2024-01-01", [("1. open", Value.str "188.0")])])] 365 = [] ∧
    tsCryptoPassages "IBM" "USD"
      [("TIME SERIES (DAILY)", [("2024-01-01", [("1. open", Value.str "188.0")])])] 365 =
      ((sortItemsDesc [("2024-01-01", [("1. open", Value.str "188.0")])]).take 365).map
        (fun p => renderCryptoRow "IBM" "USD" p.1 p.2) :=
  c3_amended "IBM" 365 "TIME SERIES (DAILY)"
    [("2024-01-01", [("1. open", Value.str "188.0")])] (by decide) (by decide)

/-- C4 counterexample: a crypto daily row that carries its open value only
under a key merely containing the field name (`"daily open"`) is rendered
with the missing-value placeholder for open, not with that value — the
contains-fallback exists only for the close field. -/
theorem c4_counterexample :
    strContains (lowerStr "daily open") "open" = true ∧
    renderCryptoRow "BTC" "USD" "2024-01-01" [("daily open", Value.str "1.23")] =
      "BTC/USD on 2024-01-01: open None, high None, low None, close None, volume None." := by
  constructor
  · decide
  · decide

/-- C4 amended: in `_ts_crypto_passages` only the close field has the
last-resort fallback to any key containing the field's base name
(case-insensitively); open (like high and low) falls back only to the
market-qualified `"1a./1b."` keys when the plain key is absent, so a row
carrying open solely under a merely-containing key renders `"open None"`
while close is recovered from such a key. -/
theorem c4_amended (sym mkt date : String) (row : Row) (k : String) (v : Value)
    (hc0 : pyGet row "4. close" = none)
    (hcm : pyOr (pyGet row ("4a. close (" ++ mkt ++ ")"))
      (pyGet row ("4b. close (" ++ mkt ++ ")")) = none)
    (hcf : row.find? (fun kv => strContains (lowerStr kv.1) "close") = some (k, v))
    (ho0 : pyGet row "1. open" = none)
    (hom : pyOr (pyGet row ("1a. open (" ++ mkt ++ ")"))
      (pyGet row ("1b. open (" ++ mkt ++ ")")) = none) :
    cryptoClose row mkt = some v ∧ cryptoOpen row mkt = none ∧
    renderCryptoRow sym mkt date row =
      sym ++ "/" ++ mkt ++ " on " ++ date ++ ": open " ++ "None" ++ ", high " ++
        renderOpt (cryptoHigh row mkt) ++ ", low " ++ renderOpt (cryptoLow row mkt) ++
        ", close " ++ renderVal v ++ ", volume " ++ renderOpt (cryptoVolume row) ++ "." := by
  have hclose : cryptoClose row mkt = some v := by
    unfold cryptoClose
    rw [hc0, hcm, hcf]
    rfl
  have hopen : cryptoOpen row mkt = none := by
    unfold cryptoOpen
    rw [ho0, hom]
  refine ⟨hclose, hopen, ?_⟩
  unfold renderCryptoRow
  rw [hclose, hopen]
  rfl

/-- C4 amended witness: a concrete row carrying open and close only under
merely-containing keys. -/
theorem c4_amended_witness :
    cryptoClose [("daily open", Value.str "1.23"), ("xx Close yy", Value.str "9.9")] "USD" =
      some (Value.str "9.9") ∧
    cryptoOpen [("daily open", Value.str "1.23"), ("xx Close yy", Value.str "9.9")] "USD" = none ∧
    renderCryptoRow "BTC" "USD" "2024-01-01"
      [("daily open", Value.str "1.23"), ("xx Close yy", Value.str "9.9")] =
      "BTC" ++ "/" ++ "USD" ++ " on " ++ "2024-01-01" ++ ": open " ++ "None" ++ ", high " ++
        renderOpt (cryptoHigh [("daily open", Value.str "1.23"), ("xx Close yy", Value.str "9.9")] "USD") ++
        ", low " ++ renderOpt (cryptoLow [("daily open", Value.str "1.23"), ("xx Close yy", Value.str "9.9")] "USD") ++
        ", close " ++ renderVal (Value.str "9.9") ++ ", volume " ++
        renderOpt (cryptoVolume [("daily open", Value.str "1.23"), ("xx Close yy", Value.str "9.9")]) ++ "." :=
  c4_amended "BTC" "USD" "2024-01-01"
    [("daily open", Value.str "1.23"), ("xx Close yy", Value.str "9.9")]
    "xx Close yy" (Value.str "9.9")
    (by decide) (by decide) (by decide) (by decide) (by decide)

/-- C5 counterexample: with a passage list generating no chunks (here the
empty list) and a collection that already holds an entry, calling
`build_index` twice leaves that prior entry in place — the collection does
not contain exactly the (empty) chunk list of the second call, because the
empty-chunk early return skips the clear. -/
theorem c5_counterexample :
    (buildIndex (fun t => [t]) []
        ((buildIndex (fun t => [t]) []
          (some [⟨"a#chunk0", "t", "s", 0, "a", "ty"⟩])).state)).state =
      some [⟨"a#chunk0", "t", "s", 0, "a", "ty"⟩] ∧
    chunkEntries (fun t => [t]) [] = [] ∧
    ¬ ((some [(⟨"a#chunk0", "t", "s", 0, "a", "ty"⟩ : Entry)] : Option (List Entry)) =
        some []) := by
  refine ⟨rfl, rfl, ?_⟩
  decide

/-- C5 amended: calling `build_index` twice with the same arguments leaves
the collection containing exactly the chunks of the second call whenever
that chunk list is non-empty (full replacement from any prior state); and
starting from an absent collection this holds for every passage list
(an empty chunk list makes both calls no-ops, so only pre-existing
contents can survive). -/
theorem c5_amended (chunker : String → List String) (docs : List Doc)
    (s0 : Option (List Entry)) :
    (chunkEntries chunker docs ≠ [] →
      (buildIndex chunker docs (buildIndex chunker docs s0).state).state =
        some (chunkEntries chunker docs)) ∧
    (buildIndex chunker docs (buildIndex chunker docs none).state).state =
      some (chunkEntries chunker docs) := by
  constructor
  · intro hne
    have hie : (chunkEntries chunker docs).isEmpty = false := by
      cases h : chunkEntries chunker docs
      · exact absurd h hne
      · rfl
    simp [buildIndex, hie]
  · cases h : chunkEntries chunker docs with
    | nil => simp [buildIndex, h]
    | cons e tl => simp [buildIndex, h]

/-- C5 amended witness: a one-passage build with the identity chunker,
repeated on top of a collection holding a stale entry, leaves exactly the
second call's chunks. -/
theorem c5_amended_witness :
    (buildIndex (fun t => [t]) [⟨"av/AAPL/overview", "AAPL Company Overview", "alpha_vantage:overview", "api/alpha_vantage"⟩]
        ((buildIndex (fun t => [t]) [⟨"av/AAPL/overview", "AAPL Company Overview", "alpha_vantage:overview", "api/alpha_vantage"⟩]
          (some [⟨"stale#chunk0", "old", "s", 0, "stale", "ty"⟩])).state)).state =
      some (chunkEntries (fun t => [t])
        [⟨"av/AAPL/overview", "AAPL Company Overview", "alpha_vantage:overview", "api/alpha_vantage"⟩]) :=
  (c5_amended (fun t => [t])
    [⟨"av/AAPL/overview", "AAPL Company Overview", "alpha_vantage:overview", "api/alpha_vantage"⟩]
    (some [⟨"stale#chunk0", "old", "s", 0, "stale", "ty"⟩])).1 (by decide)

/-- C6 counterexample: `build_index` on an empty passage list over a
collection that already holds an entry returns 0 and issues no embedding,
clear or insert, but the collection is left neither absent nor empty — it
keeps its prior entry. -/
theorem c6_counterexample :
    buildIndex (fun t => [t]) [] (some [⟨"b#chunk0", "u", "s", 0, "b", "ty"⟩]) =
      ⟨0, some [⟨"b#chunk0", "u", "s", 0, "b", "ty"⟩], []⟩ ∧
    ([(⟨"b#chunk0", "u", "s", 0, "b", "ty"⟩ : Entry)] : List Entry) ≠ [] := by
  refine ⟨rfl, ?_⟩
  decide

/-- C6 amended: when chunking every passage yields an empty chunk-text
list (in particular for an empty passage list), `build_index` returns 0
and issues no embedding, clear or insert; the collection keeps exactly its
prior contents (an absent collection is materialised empty by
`get_collection`), so it is left absent-or-empty exactly when it was
absent or empty before the call. -/
theorem c6_empty_input (chunker : String → List String) (docs : List Doc)
    (s0 : Option (List Entry))
    (h : chunkEntries chunker docs = []) :
    buildIndex chunker docs s0 = ⟨0, some (s0.getD []), []⟩ := by
  simp [buildIndex, h]

/-- C6 witness: an empty passage list on a fresh (absent) collection
returns 0 and leaves the collection present but empty. -/
theorem c6_empty_input_witness :
    buildIndex (fun t => [t]) [] none = ⟨0, some ((none : Option (List Entry)).getD []), []⟩ :=
  c6_empty_input (fun t => [t]) [] none (by decide)

/-- C1 counterexample: an empty generation output, a numeric-flavored
query and a best chunk containing `close 42,350.10` produce the answer
`"BTC close price: 42,350.10"` — the commas of the matched number are
preserved, so the answer does not contain `"42350.10"`. -/
theorem c1_counterexample :
    containsNumericRequest "What was BTC close?" = true ∧
    (answer "What was BTC close?"
        [⟨"x close 42,350.10 y", "av/BTC-USD/digital_daily#0", "api/alpha_vantage",
          some (mkRat 1 10)⟩] "").1 =
      "BTC close price: 42,350.10" ∧
    strContains "BTC close price: 42,350.10" "42350.10" = false := by
  refine ⟨by decide, by decide, by decide⟩

/-- C1 amended: under an unusable generation output, a numeric-flavored
query and a best prioritized chunk whose text contains `"close"` and
matches the close-figure pattern with group `g`, the answer is
`"BTC close price: " ++ g` — the matched number verbatim, commas
preserved; commas are stripped only by the general numeric-extraction
fallback, which is not reached when the close pattern matches. -/
theorem c1_amended (query : String) (cands : List Chunk) (genOut : String)
    (best : Chunk) (rest : List Chunk) (g : List Char)
    (hgen : pyStrip genOut = "")
    (hq : containsNumericRequest query = true)
    (htake : (prioritizeChunks cands).take 4 = best :: rest)
    (hclose : strContains (lowerStr best.text) "close" = true)
    (hsearch : closeSearch best.text.data = some g) :
    answer query cands genOut = ("BTC close price: " ++ String.mk g, best :: rest) := by
  have hbad : pyStrip genOut = "" ∨ (pyStrip genOut).length ≤ 3 ∨
      pyIsDigit (pyStrip genOut) = true := Or.inl hgen
  simp only [answer]
  rw [htake]
  simp [hbad, hq, hclose, hsearch]

/-- C1 amended witness: concrete chunk text `"x close 42,350.10 y"`. -/
theorem c1_amended_witness :
    answer "price: what was the BTC close?"
      [⟨"x close 42,350.10 y", "av/BTC-USD/digital_daily#0", "api/alpha_vantage",
        some (mkRat 1 10)⟩] "" =
      ("BTC close price: " ++ String.mk "42,350.10".data,
        [⟨"x close 42,350.10 y", "av/BTC-USD/digital_daily#0", "api/alpha_vantage",
          some (mkRat 1 10)⟩]) :=
  c1_amended "price: what was the BTC close?"
    [⟨"x close 42,350.10 y", "av/BTC-USD/digital_daily#0", "api/alpha_vantage",
      some (mkRat 1 10)⟩] ""
    ⟨"x close 42,350.10 y", "av/BTC-USD/digital_daily#0", "api/alpha_vantage",
      some (mkRat 1 10)⟩ [] "42,350.10".data
    (by decide) (by decide) (by decide) (by decide) (by decide)

set_option maxRecDepth 40000 in
/-- C2 counterexample: in the numeric template of `_build_prompt` the best
chunk's text is embedded verbatim — a 900-character chunk text appears in
the prompt untruncated, although the 800-character shortening would have
changed it. -/
theorem c2_counterexample :
    buildPrompt "What is the close price?"
      [⟨String.mk (List.replicate 900 'a'), "d", "t", some (mkRat 1 10)⟩] =
      "Extract the price from this data: " ++ String.mk (List.replicate 900 'a') ++
        "\nQuestion: What is the close price?\nAnswer:" ∧
    (String.mk (List.replicate 900 'a')).length = 900 ∧
    shortenText (String.mk (List.replicate 900 'a')) 800 ≠
      String.mk (List.replicate 900 'a') := by
  refine ⟨by decide, by decide, by decide⟩

/-- C2 amended: `_build_prompt` applies no 800-character cap at all: the
numeric template embeds the best chunk's raw text (the company and general
templates use bare 400- and 200-character slices); the 800-character
ellipsis shortening is applied only by `_format_context`, which the prompt
builder does not use. -/
theorem c2_amended (query : String) (best : Chunk) (rest : List Chunk)
    (hq : containsNumericRequest query = true) :
    buildPrompt query (best :: rest) =
      "Extract the price from this data: " ++ best.text ++ "\nQuestion: " ++
        query ++ "\nAnswer:" ∧
    formatContext [best] =
      "[1] " ++ best.docId ++ " | " ++ best.ctype ++ ":\n" ++ shortenText best.text 800 := by
  constructor
  · unfold buildPrompt
    rw [if_pos ⟨hq, List.cons_ne_nil best rest⟩]
    rfl
  · unfold formatContext
    simp only [List.enum, List.enumFrom, List.map, pyJoin]
    rfl

/-- C2 amended witness: a concrete numeric query and chunk. -/
theorem c2_amended_witness :
    buildPrompt "price of BTC" [⟨"T", "d", "t", none⟩] =
      "Extract the price from this data: " ++ "T" ++ "\nQuestion: " ++
        "price of BTC" ++ "\nAnswer:" ∧
    formatContext [⟨"T", "d", "t", none⟩] =
      "[1] " ++ "d" ++ " | " ++ "t" ++ ":\n" ++ shortenText "T" 800 :=
  c2_amended "price of BTC" ⟨"T", "d", "t", none⟩ [] (by decide)

/-- C7 counterexample: with an empty retrieval result but a generator
output that passes the quality check, `answer` returns the generated text,
not `"I don't know."`. -/
theorem c7_counterexample :
    answer "What was BTC close?" [] "The price is unknown today." =
      ("The price is unknown today.", []) ∧
    ("The price is unknown today." : String) ≠ "I don't know." := by
  refine ⟨by decide, by decide⟩

/-- C7 amended: with an empty retrieval result, `answer` returns exactly
`("I don't know.", [])` whenever the trimmed generator output is empty, at
most 3 characters, or purely digits; otherwise it returns the trimmed
generator output (still with an empty citation list). -/
theorem c7_no_context (query genOut : String)
    (h : pyStrip genOut = "" ∨ (pyStrip genOut).length ≤ 3 ∨
      pyIsDigit (pyStrip genOut) = true) :
    answer query [] genOut = ("I don't know.", []) := by
  simp [answer, h, prioritizeChunks]

/-- C7 witness: an empty retrieval result and an empty generator output. -/
theorem c7_no_context_witness :
    answer "What was BTC/USD close yesterday?" [] "" = ("I don't know.", []) :=
  c7_no_context "What was BTC/USD close yesterday?" "" (Or.inl (by decide))

end RagBot
